import Mathlib

/- A shallow embedding of the admin-portal form screens: the validation
   schemas, submit handlers, hydration transforms, upload handlers and the
   submit life cycle, together with theorems about their behaviour. -/

/-- Models the JavaScript idiom of defaulting an optional string field with
the or-operator, as in the hydration transforms: the default replaces an
absent field and also the empty string, since both are falsy. -/
def jsOr (o : Option String) (d : String) : String :=
  match o with
  | some s => if s = "" then d else s
  | none => d

/-- Models the JavaScript idiom of keeping a field only when truthy, as in
the hydration of list item ids. -/
def jsOrNone (o : Option String) : Option String :=
  match o with
  | some s => if s = "" then none else some s
  | none => none

/-- True when the string contains a lowercase ASCII letter, the first
character class of the registration password pattern. -/
def hasLower (s : String) : Bool := s.data.any (fun c => 'a' ≤ c && c ≤ 'z')

/-- True when the string contains an uppercase ASCII letter. -/
def hasUpper (s : String) : Bool := s.data.any (fun c => 'A' ≤ c && c ≤ 'Z')

/-- True when the string contains an ASCII digit. -/
def hasDigit (s : String) : Bool := s.data.any (fun c => '0' ≤ c && c ≤ '9')

/-- Splits a character list at every occurrence of the separator. -/
def splitChar (sep : Char) : List Char → List (List Char)
  | [] => [[]]
  | c :: cs =>
    let r := splitChar sep cs
    if c = sep then [] :: r
    else
      match r with
      | [] => [[c]]
      | h :: t => (c :: h) :: t

/-- Modelled from the spec: the well-formedness check of the schema-validation
library for email addresses (the library itself is not part of the
repository). An address is accepted when a single at-sign separates a
non-empty local part from a domain of at least two non-empty dot-separated
labels. -/
def emailWellFormed (s : String) : Bool :=
  match splitChar '@' s.data with
  | [lp, dom] =>
    !lp.isEmpty && !dom.isEmpty &&
      (let labels := splitChar '.' dom
       decide (2 ≤ labels.length) && labels.all (fun l => !l.isEmpty))
  | _ => false

/-- Modelled from the spec: the URL-shaped check of the schema-validation
library (the library itself is not part of the repository). A value is
URL-shaped when it extends one of the two web schemes. -/
def urlValid (s : String) : Bool :=
  (s.startsWith "https://" && decide (8 < s.length)) ||
    (s.startsWith "http://" && decide (7 < s.length))

/-- Acceptance of the login password field, from the login validation schema:
a minimum length of six and the required rule. -/
def loginPasswordAccepts (s : String) : Bool :=
  decide (6 ≤ s.length) && !(s == "")

/-- Acceptance of the registration password field, from the registration
validation schema: a minimum length of eight, the lookahead pattern for a
lowercase letter, an uppercase letter and a digit, and the required rule. -/
def regPasswordAccepts (s : String) : Bool :=
  decide (8 ≤ s.length) && (hasLower s && hasUpper s && hasDigit s) && !(s == "")

/-- The field values of the registration form. -/
structure RegisterValues where
  firstName : String
  lastName : String
  email : String
  password : String
  confirmPassword : String
  terms : Bool

/-- Errors of a registration name field: required, then length bounds two and
fifty, as in the registration schema. -/
def regNameErrors (path s requiredMsg : String) : List (String × String) :=
  if s = "" then [(path, requiredMsg)]
  else if s.length < 2 then [(path, "Too Short!")]
  else if 50 < s.length then [(path, "Too Long!")]
  else []

/-- The registration validation schema, mapping field paths to messages; an
empty list means the form is valid. -/
def regValidate (v : RegisterValues) : List (String × String) :=
  regNameErrors "firstName" v.firstName "First name is required" ++
  regNameErrors "lastName" v.lastName "Last name is required" ++
  (if v.email = "" then [("email", "Email is required")]
   else if emailWellFormed v.email then [] else [("email", "Invalid email address")]) ++
  (if v.password = "" then [("password", "Password is required")]
   else if v.password.length < 8 then [("password", "Password must be at least 8 characters")]
   else if hasLower v.password && hasUpper v.password && hasDigit v.password then []
   else [("password", "Password must contain at least one uppercase letter, one lowercase letter, and one number")]) ++
  (if v.confirmPassword = "" then [("confirmPassword", "Confirm password is required")]
   else if v.confirmPassword = v.password then []
   else [("confirmPassword", "Passwords must match")]) ++
  (if v.terms then [] else [("terms", "You must accept the terms and conditions")])

/-- A response of the remote authentication client: whether a user object was
returned, and the message of the returned error when there is one. -/
structure AuthResponse where
  hasUser : Bool
  error : Option String

/-- The arguments of a remote sign-up call, including the metadata block. -/
structure SignUpCall where
  email : String
  password : String
  firstName : String
  lastName : String
  fullName : String

/-- The observable outcome of one run of the registration submit handler. -/
structure RegisterOutcome where
  calls : List SignUpCall
  success : Bool
  errorMsg : Option String
  scheduledNavs : List (Nat × String)
  loadingFinal : Bool

/-- The registration submit handler: one sign-up call; on an error response
the caught message or the generic fallback; on a user the success banner and
a navigation to the login screen scheduled after 3000 milliseconds; on
neither, nothing beyond the call itself. -/
def registerHandleSubmit (v : RegisterValues) (resp : AuthResponse) : RegisterOutcome :=
  let call : SignUpCall :=
    ⟨v.email, v.password, v.firstName, v.lastName, v.firstName ++ " " ++ v.lastName⟩
  match resp.error with
  | some m =>
    ⟨[call], false, some (if m = "" then "Registration failed. Please try again." else m), [], false⟩
  | none =>
    if resp.hasUser then ⟨[call], true, none, [(3000, "/authentication/login")], false⟩
    else ⟨[call], false, none, [], false⟩

/-- The registration submit as run by the form library: the handler fires only
when the validation schema reports no errors. -/
def formikRegisterSubmit (v : RegisterValues) (resp : AuthResponse) : RegisterOutcome :=
  if regValidate v = [] then registerHandleSubmit v resp
  else ⟨[], false, none, [], false⟩

/-- The field values of the login form. -/
structure LoginValues where
  email : String
  password : String
  rememberMe : Bool

/-- The arguments of a remote sign-in call. -/
structure SignInCall where
  email : String
  password : String

/-- A local-storage operation on the remember-me flag. -/
inductive StorageOp where
  | setRememberMe
  | removeRememberMe
deriving DecidableEq

/-- The observable outcome of one run of the login submit handler. -/
structure LoginOutcome where
  calls : List SignInCall
  errorMsg : Option String
  navs : List String
  storageOps : List StorageOp
  loadingFinal : Bool

/-- The login submit handler: one sign-in call; on an error response the
caught message or the generic fallback; on a user the remember-me persistence
and an immediate navigation to the dashboard; on neither, nothing beyond the
call itself. -/
def loginHandleSubmit (v : LoginValues) (resp : AuthResponse) : LoginOutcome :=
  let call : SignInCall := ⟨v.email, v.password⟩
  match resp.error with
  | some m =>
    ⟨[call], some (if m = "" then "Login failed. Please check your credentials." else m), [], [], false⟩
  | none =>
    if resp.hasUser then
      ⟨[call], none, ["/dashboard"],
        [if v.rememberMe then .setRememberMe else .removeRememberMe], false⟩
    else ⟨[call], none, [], [], false⟩

/-- The input of end-to-end registration scenario A. -/
def scenarioA : RegisterValues := ⟨"Jo", "Ng", "jo@x.com", "Passw0rd", "Passw0rd", true⟩

/-- The open-graph block of the form state, as in the initial values of the
blog and banner schemas. -/
structure OpenGraphForm where
  title : String
  description : String
  url : String
  type : String
  image : String

/-- The SEO block of the form state. -/
structure SeoForm where
  title : String
  description : String
  keywords : String
  metaRobots : String
  metaViewport : String
  canonicalURL : String
  openGraph : OpenGraphForm

/-- The banner block of the blog form state. -/
structure BannerForm where
  title : String
  description : String
  videoUrl : String

/-- The call-to-action block of the blog content. -/
structure CtaForm where
  slug : String
  text : String

/-- A repeatable text entry of the blog content; the hydration transform adds
an optional id taken from the fetched record. -/
structure ItemForm where
  text : String
  id : Option String

/-- A repeatable link entry of the blog content. -/
structure UrlItemForm where
  text : String
  href : String
  id : Option String

/-- The tags block of the blog content. -/
structure TagsForm where
  list : List ItemForm
  text : String

/-- The urls block of the blog content. -/
structure UrlsForm where
  list : List UrlItemForm
  text : String

/-- The content block of the blog form state. -/
structure ContentForm where
  cta : CtaForm
  title : String
  thumbImage : String
  createdDate : String
  description : List ItemForm
  tags : TagsForm
  urls : UrlsForm

/-- The whole blog form state: the three blocks that are also the payload of
the insert and update calls. -/
structure BlogForm where
  seo : SeoForm
  banner : BannerForm
  content : ContentForm

/-- The banner block of the SEO-banner form state, with the poster field. -/
structure SBBannerForm where
  title : String
  description : String
  videoUrl : String
  poster : String

/-- The whole SEO-banner form state. -/
structure SBForm where
  seo : SeoForm
  banner : SBBannerForm

/-- The open-graph block of a fetched record: every field may be absent. -/
structure OpenGraphRec where
  title : Option String
  description : Option String
  url : Option String
  type : Option String
  image : Option String

/-- The SEO block of a fetched record. -/
structure SeoRec where
  title : Option String
  description : Option String
  keywords : Option String
  metaRobots : Option String
  metaViewport : Option String
  canonicalURL : Option String
  openGraph : Option OpenGraphRec

/-- The banner block of a fetched blog record. -/
structure BannerRec where
  title : Option String
  description : Option String
  videoUrl : Option String

/-- The call-to-action block of a fetched blog record. -/
structure CtaRec where
  slug : Option String
  text : Option String

/-- A repeatable text entry of a fetched blog record. -/
structure ItemRec where
  text : Option String
  id : Option String

/-- A repeatable link entry of a fetched blog record. -/
structure UrlItemRec where
  text : Option String
  href : Option String
  id : Option String

/-- The tags block of a fetched blog record. -/
structure TagsRec where
  list : Option (List ItemRec)
  text : Option String

/-- The urls block of a fetched blog record. -/
structure UrlsRec where
  list : Option (List UrlItemRec)
  text : Option String

/-- The content block of a fetched blog record. -/
structure ContentRec where
  cta : Option CtaRec
  title : Option String
  thumbImage : Option String
  createdDate : Option String
  description : Option (List ItemRec)
  tags : Option TagsRec
  urls : Option UrlsRec

/-- A fetched blog record: every block may be absent, and extra server
columns outside these blocks are not read by the transform. -/
structure BlogRecord where
  seo : Option SeoRec
  banner : Option BannerRec
  content : Option ContentRec

/-- The banner block of a fetched SEO-banner record. -/
structure SBBannerRec where
  title : Option String
  description : Option String
  videoUrl : Option String
  poster : Option String

/-- A fetched SEO-banner record. -/
structure SBRecord where
  seo : Option SeoRec
  banner : Option SBBannerRec

/-- Models the hydration of a repeatable list: kept and mapped when present
with a truthy length, otherwise replaced by the one-entry default. -/
def listOr (o : Option (List α)) (f : α → β) (d : List β) : List β :=
  match o with
  | some l => if l.isEmpty then d else l.map f
  | none => d

/-- Hydration of one repeatable text entry, keeping a truthy id. -/
def hydItem (i : ItemRec) : ItemForm := ⟨jsOr i.text "", jsOrNone i.id⟩

/-- Hydration of one repeatable link entry. -/
def hydUrlItem (i : UrlItemRec) : UrlItemForm :=
  ⟨jsOr i.text "", jsOr i.href "", jsOrNone i.id⟩

/-- Hydration of the SEO block, shared verbatim by the blog and SEO-banner
update screens: each field defaults when absent or falsy. -/
def hydrateSeo (so : Option SeoRec) : SeoForm :=
  let og : Option OpenGraphRec := so.bind SeoRec.openGraph
  { title := jsOr (so.bind SeoRec.title) ""
    description := jsOr (so.bind SeoRec.description) ""
    keywords := jsOr (so.bind SeoRec.keywords) ""
    metaRobots := jsOr (so.bind SeoRec.metaRobots) "index, follow"
    metaViewport := jsOr (so.bind SeoRec.metaViewport) "width=device-width, initial-scale=1"
    canonicalURL := jsOr (so.bind SeoRec.canonicalURL) ""
    openGraph :=
      { title := jsOr (og.bind OpenGraphRec.title) ""
        description := jsOr (og.bind OpenGraphRec.description) ""
        url := jsOr (og.bind OpenGraphRec.url) ""
        type := jsOr (og.bind OpenGraphRec.type) "website"
        image := jsOr (og.bind OpenGraphRec.image) "" } }

/-- The hydration transform of the blog update screen, from the fetched
record to the form state; today stands for the current date string used as
the fallback of createdDate. -/
def hydrateBlog (today : String) (r : BlogRecord) : BlogForm :=
  let ct : Option ContentRec := r.content
  let cta : Option CtaRec := ct.bind ContentRec.cta
  let tg : Option TagsRec := ct.bind ContentRec.tags
  let ur : Option UrlsRec := ct.bind ContentRec.urls
  { seo := hydrateSeo r.seo
    banner :=
      { title := jsOr (r.banner.bind BannerRec.title) ""
        description := jsOr (r.banner.bind BannerRec.description) ""
        videoUrl := jsOr (r.banner.bind BannerRec.videoUrl) "" }
    content :=
      { cta :=
          { slug := jsOr (cta.bind CtaRec.slug) ""
            text := jsOr (cta.bind CtaRec.text) "" }
        title := jsOr (ct.bind ContentRec.title) ""
        thumbImage := jsOr (ct.bind ContentRec.thumbImage) ""
        createdDate := jsOr (ct.bind ContentRec.createdDate) today
        description := listOr (ct.bind ContentRec.description) hydItem [⟨"", none⟩]
        tags :=
          { list := listOr (tg.bind TagsRec.list) hydItem [⟨"", none⟩]
            text := jsOr (tg.bind TagsRec.text) "Tags" }
        urls :=
          { list := listOr (ur.bind UrlsRec.list) hydUrlItem [⟨"", "", none⟩]
            text := jsOr (ur.bind UrlsRec.text) "Urls" } } }

/-- The hydration transform of the SEO-banner update screen. -/
def hydrateSB (r : SBRecord) : SBForm :=
  { seo := hydrateSeo r.seo
    banner :=
      { title := jsOr (r.banner.bind SBBannerRec.title) ""
        description := jsOr (r.banner.bind SBBannerRec.description) ""
        videoUrl := jsOr (r.banner.bind SBBannerRec.videoUrl) ""
        poster := jsOr (r.banner.bind SBBannerRec.poster) "" } }

/-- The empty initial values of the blog forms; today is the current date
string written into createdDate. -/
def emptyBlogValues (today : String) : BlogForm :=
  { seo :=
      { title := "", description := "", keywords := ""
        metaRobots := "index, follow"
        metaViewport := "width=device-width, initial-scale=1"
        canonicalURL := ""
        openGraph := { title := "", description := "", url := "", type := "website", image := "" } }
    banner := { title := "", description := "", videoUrl := "" }
    content :=
      { cta := { slug := "", text := "" }
        title := "", thumbImage := "", createdDate := today
        description := [⟨"", none⟩]
        tags := { list := [⟨"", none⟩], text := "Tags" }
        urls := { list := [⟨"", "", none⟩], text := "Urls" } } }

/-- The empty initial values of the SEO-banner forms. -/
def emptySBValues : SBForm :=
  { seo :=
      { title := "", description := "", keywords := ""
        metaRobots := "index, follow"
        metaViewport := "width=device-width, initial-scale=1"
        canonicalURL := ""
        openGraph := { title := "", description := "", url := "", type := "website", image := "" } }
    banner := { title := "", description := "", videoUrl := "", poster := "" } }

/-- A repeatable text entry restricted to its documented field. -/
structure ItemDoc where
  text : String
deriving DecidableEq

/-- A repeatable link entry restricted to its documented fields. -/
structure UrlItemDoc where
  text : String
  href : String
deriving DecidableEq

/-- The tags block restricted to its documented fields. -/
structure TagsDoc where
  list : List ItemDoc
  text : String
deriving DecidableEq

/-- The urls block restricted to its documented fields. -/
structure UrlsDoc where
  list : List UrlItemDoc
  text : String
deriving DecidableEq

/-- The content block restricted to its documented fields. -/
structure ContentDoc where
  cta : CtaForm
  title : String
  thumbImage : String
  createdDate : String
  description : List ItemDoc
  tags : TagsDoc
  urls : UrlsDoc

/-- A blog payload restricted to its documented fields. -/
structure BlogDoc where
  seo : SeoForm
  banner : BannerForm
  content : ContentDoc

/-- Drops the undocumented id of a text entry. -/
def stripItem (i : ItemForm) : ItemDoc := ⟨i.text⟩

/-- Drops the undocumented id of a link entry. -/
def stripUrlItem (i : UrlItemForm) : UrlItemDoc := ⟨i.text, i.href⟩

/-- The documented fields of the nested structure an update submit sends:
the whole form state with the item ids set aside. -/
def sentBlogDoc (v : BlogForm) : BlogDoc :=
  { seo := v.seo
    banner := v.banner
    content :=
      { cta := v.content.cta
        title := v.content.title
        thumbImage := v.content.thumbImage
        createdDate := v.content.createdDate
        description := v.content.description.map stripItem
        tags := ⟨v.content.tags.list.map stripItem, v.content.tags.text⟩
        urls := ⟨v.content.urls.list.map stripUrlItem, v.content.urls.text⟩ } }

/-- The documented fields of a received text entry. -/
def recItemDoc (i : ItemRec) : ItemDoc := ⟨i.text.getD ""⟩

/-- The documented fields of a received link entry. -/
def recUrlItemDoc (i : UrlItemRec) : UrlItemDoc := ⟨i.text.getD "", i.href.getD ""⟩

/-- The documented fields of a received SEO block. -/
def receivedSeoDoc (so : Option SeoRec) : SeoForm :=
  let og : Option OpenGraphRec := so.bind SeoRec.openGraph
  { title := (so.bind SeoRec.title).getD ""
    description := (so.bind SeoRec.description).getD ""
    keywords := (so.bind SeoRec.keywords).getD ""
    metaRobots := (so.bind SeoRec.metaRobots).getD ""
    metaViewport := (so.bind SeoRec.metaViewport).getD ""
    canonicalURL := (so.bind SeoRec.canonicalURL).getD ""
    openGraph :=
      { title := (og.bind OpenGraphRec.title).getD ""
        description := (og.bind OpenGraphRec.description).getD ""
        url := (og.bind OpenGraphRec.url).getD ""
        type := (og.bind OpenGraphRec.type).getD ""
        image := (og.bind OpenGraphRec.image).getD "" } }

/-- The documented fields of a received blog record. -/
def receivedBlogDoc (r : BlogRecord) : BlogDoc :=
  let ct : Option ContentRec := r.content
  let cta : Option CtaRec := ct.bind ContentRec.cta
  let tg : Option TagsRec := ct.bind ContentRec.tags
  let ur : Option UrlsRec := ct.bind ContentRec.urls
  { seo := receivedSeoDoc r.seo
    banner :=
      { title := (r.banner.bind BannerRec.title).getD ""
        description := (r.banner.bind BannerRec.description).getD ""
        videoUrl := (r.banner.bind BannerRec.videoUrl).getD "" }
    content :=
      { cta :=
          { slug := (cta.bind CtaRec.slug).getD ""
            text := (cta.bind CtaRec.text).getD "" }
        title := (ct.bind ContentRec.title).getD ""
        thumbImage := (ct.bind ContentRec.thumbImage).getD ""
        createdDate := (ct.bind ContentRec.createdDate).getD ""
        description := ((ct.bind ContentRec.description).getD []).map recItemDoc
        tags := ⟨((tg.bind TagsRec.list).getD []).map recItemDoc, (tg.bind TagsRec.text).getD ""⟩
        urls := ⟨((ur.bind UrlsRec.list).getD []).map recUrlItemDoc, (ur.bind UrlsRec.text).getD ""⟩ } }

/-- True when the optional string is present with a truthy value. -/
def truthyOpt : Option String → Bool
  | some s => !(s == "")
  | none => false

/-- The SEO block of a record is well formed when every documented field is
present and the fields the transform would default are truthy. -/
def wellFormedSeoRec (so : SeoRec) : Bool :=
  match so.openGraph with
  | some og =>
    so.title.isSome && so.description.isSome && so.keywords.isSome &&
    so.canonicalURL.isSome && truthyOpt so.metaRobots && truthyOpt so.metaViewport &&
    og.title.isSome && og.description.isSome && og.url.isSome && og.image.isSome &&
    truthyOpt og.type
  | none => false

/-- The banner block of a blog record is well formed when every documented
field is present. -/
def wellFormedBannerRec (bn : BannerRec) : Bool :=
  bn.title.isSome && bn.description.isSome && bn.videoUrl.isSome

/-- The content block of a blog record is well formed when every documented
field is present, the defaulted fields are truthy, and the three repeatable
lists are present and non-empty with every entry carrying its documented
fields. -/
def wellFormedContentRec (ct : ContentRec) : Bool :=
  match ct.cta, ct.description, ct.tags, ct.urls with
  | some cta, some de, some tg, some ur =>
    cta.slug.isSome && cta.text.isSome && ct.title.isSome && ct.thumbImage.isSome &&
    truthyOpt ct.createdDate &&
    !de.isEmpty && de.all (fun i => i.text.isSome) &&
    (match tg.list with
     | some l => !l.isEmpty && l.all (fun i => i.text.isSome)
     | none => false) &&
    truthyOpt tg.text &&
    (match ur.list with
     | some l => !l.isEmpty && l.all (fun i => i.text.isSome && i.href.isSome)
     | none => false) &&
    truthyOpt ur.text
  | _, _, _, _ => false

/-- A fetched blog record is well formed when its three blocks are present
and well formed. -/
def wellFormedBlogRec (r : BlogRecord) : Bool :=
  match r.seo, r.banner, r.content with
  | some so, some bn, some ct =>
    wellFormedSeoRec so && wellFormedBannerRec bn && wellFormedContentRec ct
  | _, _, _ => false

/-- Errors of a required text field: the required rule alone. -/
def reqErr (path s msg : String) : List (String × String) :=
  if s = "" then [(path, msg)] else []

/-- Errors of a URL field: required when empty, otherwise the URL-shaped
rule; the URL rule skips the empty string as the library does. -/
def urlFieldErrors (path s requiredMsg : String) : List (String × String) :=
  if s = "" then [(path, requiredMsg)]
  else if urlValid s then [] else [(path, "Must be a valid URL")]

/-- Errors of the shared SEO block of the blog and banner schemas. -/
def seoErrors (s : SeoForm) : List (String × String) :=
  reqErr "seo.title" s.title "Required" ++
  reqErr "seo.description" s.description "Required" ++
  reqErr "seo.keywords" s.keywords "Required" ++
  urlFieldErrors "seo.canonicalURL" s.canonicalURL "Required" ++
  reqErr "seo.openGraph.title" s.openGraph.title "Required" ++
  reqErr "seo.openGraph.description" s.openGraph.description "Required" ++
  urlFieldErrors "seo.openGraph.url" s.openGraph.url "Required" ++
  urlFieldErrors "seo.openGraph.image" s.openGraph.image "Required"

/-- Errors of the banner block of the blog schema. -/
def blogBannerErrors (b : BannerForm) : List (String × String) :=
  reqErr "banner.title" b.title "Required" ++
  reqErr "banner.description" b.description "Required" ++
  urlFieldErrors "banner.videoUrl" b.videoUrl "Required"

/-- Errors of a list of repeatable text entries, indexed from the given
position: each empty entry fails its required rule. -/
def itemTextErrorsAux (base msg : String) (i : Nat) : List ItemForm → List (String × String)
  | [] => []
  | it :: ts =>
    (if it.text = "" then [(base ++ "." ++ toString i ++ ".text", msg)] else []) ++
      itemTextErrorsAux base msg (i + 1) ts

/-- Errors of a list of repeatable link entries. -/
def urlItemErrorsAux (base : String) (i : Nat) : List UrlItemForm → List (String × String)
  | [] => []
  | it :: ts =>
    (if it.text = "" then [(base ++ "." ++ toString i ++ ".text", "Link text is required")] else []) ++
      (if it.href = "" then [(base ++ "." ++ toString i ++ ".href", "URL is required")]
       else if urlValid it.href then []
       else [(base ++ "." ++ toString i ++ ".href", "Must be a valid URL")]) ++
      urlItemErrorsAux base (i + 1) ts

/-- Errors of the content block of the blog schema, with the minimum-length
rules of the three repeatable lists. -/
def contentErrors (c : ContentForm) : List (String × String) :=
  reqErr "content.title" c.title "Required" ++
  reqErr "content.createdDate" c.createdDate "Required" ++
  reqErr "content.cta.slug" c.cta.slug "Required" ++
  reqErr "content.cta.text" c.cta.text "Required" ++
  (if c.description.isEmpty then [("content.description", "At least one description paragraph is required")] else []) ++
  itemTextErrorsAux "content.description" "Required" 0 c.description ++
  (if c.tags.list.isEmpty then [("content.tags.list", "At least one tag is required")] else []) ++
  itemTextErrorsAux "content.tags.list" "Tag is required" 0 c.tags.list ++
  (if c.urls.list.isEmpty then [("content.urls.list", "At least one URL is required")] else []) ++
  urlItemErrorsAux "content.urls.list" 0 c.urls.list ++
  (if c.thumbImage = "" then []
   else if urlValid c.thumbImage then []
   else [("content.thumbImage", "Must be a valid URL")])

/-- The blog validation schema; an empty list means the form is valid. -/
def blogValidate (v : BlogForm) : List (String × String) :=
  seoErrors v.seo ++ blogBannerErrors v.banner ++ contentErrors v.content

/-- A response of the remote data client, reduced to the message of the
returned error when there is one. -/
structure DbResponse where
  error : Option String

/-- The payload the blog update submit builds from the form state: the three
blocks, unchanged. -/
def blogUpdatePayload (v : BlogForm) : BlogForm :=
  { seo := v.seo, banner := v.banner, content := v.content }

/-- The observable outcome of a blog insert submit. -/
structure BlogSubmitOutcome where
  calls : List (String × BlogForm)
  success : Bool
  errorMsg : Option String
  loadingFinal : Bool

/-- The create-blog submit handler: one insert into the blogs collection; on
an error response the caught message or the generic fallback. -/
def createBlogHandleSubmit (v : BlogForm) (resp : DbResponse) : BlogSubmitOutcome :=
  match resp.error with
  | some m => ⟨[("blogs", v)], false, some (if m = "" then "Failed to create blog" else m), false⟩
  | none => ⟨[("blogs", v)], true, none, false⟩

/-- The create-blog submit as run by the form library: the handler fires only
when the validation schema reports no errors. -/
def formikCreateBlogSubmit (v : BlogForm) (resp : DbResponse) : BlogSubmitOutcome :=
  if blogValidate v = [] then createBlogHandleSubmit v resp
  else ⟨[], false, none, false⟩

/-- The observable outcome of a blog update submit. -/
structure BlogUpdateOutcome where
  calls : List (String × String × BlogForm)
  success : Bool
  errorMsg : Option String
  loadingFinal : Bool

/-- The update-blog submit handler: an early error when the identifier is
missing, otherwise one update of the blogs collection by identifier. -/
def updateBlogHandleSubmit (blogId : String) (v : BlogForm) (resp : DbResponse) : BlogUpdateOutcome :=
  if blogId = "" then ⟨[], false, some "Blog ID is missing", false⟩
  else
    match resp.error with
    | some m =>
      ⟨[("blogs", blogId, blogUpdatePayload v)], false,
        some (if m = "" then "Failed to update blog" else m), false⟩
    | none => ⟨[("blogs", blogId, blogUpdatePayload v)], true, none, false⟩

/-- The observable outcome of an SEO-banner insert submit. -/
structure SBSubmitOutcome where
  calls : List (String × SBForm)
  success : Bool
  errorMsg : Option String
  loadingFinal : Bool

/-- The create-SEO-banner submit handler. -/
def createSBHandleSubmit (v : SBForm) (resp : DbResponse) : SBSubmitOutcome :=
  match resp.error with
  | some m =>
    ⟨[("seo_banners", v)], false, some (if m = "" then "Failed to create SEO Banner" else m), false⟩
  | none => ⟨[("seo_banners", v)], true, none, false⟩

/-- The observable outcome of an SEO-banner update submit. -/
structure SBUpdateOutcome where
  calls : List (String × String × SBForm)
  success : Bool
  errorMsg : Option String
  loadingFinal : Bool

/-- The update-SEO-banner submit handler. -/
def updateSBHandleSubmit (bannerId : String) (v : SBForm) (resp : DbResponse) : SBUpdateOutcome :=
  if bannerId = "" then ⟨[], false, some "SEO Banner ID is missing", false⟩
  else
    match resp.error with
    | some m =>
      ⟨[("seo_banners", bannerId, v)], false,
        some (if m = "" then "Failed to update SEO Banner" else m), false⟩
    | none => ⟨[("seo_banners", bannerId, v)], true, none, false⟩

/-- The state of the SEO-banner create screen that the OG-image upload
touches: the form values and the per-field uploading flag of that field,
false standing for the idle upload status and true for uploading. -/
structure SBScreen where
  values : SBForm
  ogUploading : Bool

/-- Selecting a file in the OG-image field: the upload handler first raises
the uploading flag of that field. -/
def ogUploadStart (s : SBScreen) : SBScreen :=
  { s with ogUploading := true }

/-- Resolution of the OG-image upload: the returned secure URL is written
into the image field of the open-graph block and the flag is lowered. -/
def ogUploadResolve (s : SBScreen) (url : String) : SBScreen :=
  { values :=
      { s.values with
        seo := { s.values.seo with
          openGraph := { s.values.seo.openGraph with image := url } } }
    ogUploading := false }

/-- A view of an update screen: the loading indicator while fetching, or the
editable form with the presence of the error banner and its initial values. -/
inductive UpdateBlogView where
  | spinner
  | form (errorShown : Bool) (initialValues : BlogForm)

/-- The local state of the blog update screen that rendering reads. -/
structure UpdateBlogScreen where
  fetching : Bool
  error : Option String
  initialValues : BlogForm

/-- What the blog update screen renders: the loading indicator while
fetching, otherwise the form, with the error banner when an error is set. -/
def renderUpdateBlog (s : UpdateBlogScreen) : UpdateBlogView :=
  if s.fetching then .spinner else .form s.error.isSome s.initialValues

/-- The screen state after the initial fetch fails with the given message:
the error is stored (or its fallback), fetching ends, and the initial values
are still the empty defaults. -/
def updateBlogFetchFail (today msg : String) : UpdateBlogScreen :=
  { fetching := false
    error := some (if msg = "" then "Failed to load blog data" else msg)
    initialValues := emptyBlogValues today }

/-- A view of the SEO-banner update screen. -/
inductive UpdateSBView where
  | spinner
  | form (errorShown : Bool) (initialValues : SBForm)

/-- The local state of the SEO-banner update screen that rendering reads. -/
structure UpdateSBScreen where
  fetching : Bool
  error : Option String
  initialValues : SBForm

/-- What the SEO-banner update screen renders. -/
def renderUpdateSB (s : UpdateSBScreen) : UpdateSBView :=
  if s.fetching then .spinner else .form s.error.isSome s.initialValues

/-- The SEO-banner update screen after the initial fetch fails. -/
def updateSBFetchFail (msg : String) : UpdateSBScreen :=
  { fetching := false
    error := some (if msg = "" then "Failed to load SEO Banner data" else msg)
    initialValues := emptySBValues }

/-- The submit life cycle every screen shares: the loading flag that disables
the submit button, the number of submit requests in flight, and the number of
remote submit calls started so far. -/
structure SubmitState where
  loading : Bool
  inflight : Nat
  calls : Nat
deriving DecidableEq

/-- An event of the submit life cycle: a press of the submit button, or the
settlement of the in-flight request. -/
inductive SubmitEvent where
  | click
  | response

/-- One step of the submit life cycle: a click on the disabled button while
loading is a no-op; otherwise loading rises and a remote call starts; a
response lowers loading again, as the handlers always do on settlement. -/
def submitStep (s : SubmitState) : SubmitEvent → SubmitState
  | .click => if s.loading then s else ⟨true, s.inflight + 1, s.calls + 1⟩
  | .response => if s.inflight = 0 then s else ⟨false, s.inflight - 1, s.calls⟩

/-- The initial submit state of a mounted screen. -/
def initSubmitState : SubmitState := ⟨false, 0, 0⟩

/-- The submit state after a sequence of events from the initial state. -/
def runSubmit (evs : List SubmitEvent) : SubmitState :=
  evs.foldl submitStep initSubmitState

/-- The invariant of the submit life cycle: a request is in flight exactly
while loading is raised. -/
def submitInv (s : SubmitState) : Prop :=
  s.inflight = if s.loading then 1 else 0

/-- A concrete well-formed open-graph block of a fetched record. -/
def ogWell : OpenGraphRec :=
  ⟨some "OgT", some "OgD", some "https://og.example.com", some "article",
    some "https://img.example.com/i.png"⟩

/-- A concrete well-formed SEO block of a fetched record. -/
def seoWell : SeoRec :=
  ⟨some "T", some "D", some "k1, k2", some "noindex", some "width=640",
    some "https://example.com/c", some ogWell⟩

/-- A concrete well-formed fetched blog record. -/
def rWell : BlogRecord :=
  ⟨some seoWell,
    some ⟨some "BT", some "BD", some "https://v.example.com/v.mp4"⟩,
    some ⟨some ⟨some "/blogs/x", some "Read"⟩, some "CT",
      some "https://t.example.com/t.jpg", some "2024-01-02",
      some [⟨some "p1", some "7"⟩, ⟨some "p2", none⟩],
      some ⟨some [⟨some "tag1", none⟩], some "Tags"⟩,
      some ⟨some [⟨some "link", some "https://l.example.com", some "9"⟩], some "Urls"⟩⟩⟩

/-- The record of the round-trip counterexample: identical to the well-formed
record except that the server holds an empty metaRobots string. -/
def rMeta : BlogRecord :=
  { rWell with seo := some { seoWell with metaRobots := some "" } }

/-- A fetched blog record with every block absent. -/
def rAbsent : BlogRecord := ⟨none, none, none⟩

/-- A fetched SEO-banner record with every block absent. -/
def sbAbsent : SBRecord := ⟨none, none⟩

/-- Absence or falsiness of an optional string field, the condition under
which the hydration transforms substitute a default. -/
def jsFalsy (o : Option String) : Prop := o = none ∨ o = some ""

theorem submitStep_inv {s : SubmitState} (h : submitInv s) (e : SubmitEvent) :
    submitInv (submitStep s e) := by
  cases e with
  | click =>
    by_cases hl : s.loading
    · simpa [submitStep, hl] using h
    · have h0 : s.inflight = 0 := by simpa [submitInv, hl] using h
      simp [submitStep, hl, submitInv, h0]
  | response =>
    by_cases hz : s.inflight = 0
    · simpa [submitStep, hz] using h
    · have h1 : s.loading = true := by
        by_contra hl
        simp [submitInv, hl] at h
        exact hz h
      have h2 : s.inflight = 1 := by simpa [submitInv, h1] using h
      simp [submitStep, hz, submitInv, h2]

theorem runSubmit_inv (evs : List SubmitEvent) : submitInv (runSubmit evs) := by
  have main : ∀ (l : List SubmitEvent) (s : SubmitState), submitInv s →
      submitInv (l.foldl submitStep s) := by
    intro l
    induction l with
    | nil => intro s hs; simpa using hs
    | cons e t ih =>
      intro s hs
      exact ih (submitStep s e) (submitStep_inv hs e)
  exact main evs initSubmitState rfl


theorem jsOr_empty (o : Option String) : jsOr o "" = o.getD "" := by
  cases o with
  | none => rfl
  | some s => by_cases hs : s = "" <;> simp [jsOr, hs]

theorem jsOr_truthy {o : Option String} (d : String) (h : truthyOpt o = true) :
    jsOr o d = o.getD "" := by
  cases o with
  | none => simp [truthyOpt] at h
  | some s =>
    have hs : s ≠ "" := by simpa [truthyOpt] using h
    simp [jsOr, hs]

theorem listOr_ne {α β : Type} (l : List α) (f : α → β) (d : List β)
    (h : l.isEmpty = false) : listOr (some l) f d = l.map f := by
  simp [listOr, h]

theorem map_hydItem_strip (l : List ItemRec) :
    (l.map hydItem).map stripItem = l.map recItemDoc := by
  induction l with
  | nil => rfl
  | cons i t ih => simp [hydItem, stripItem, recItemDoc, jsOr_empty, ih]

theorem map_hydUrlItem_strip (l : List UrlItemRec) :
    (l.map hydUrlItem).map stripUrlItem = l.map recUrlItemDoc := by
  induction l with
  | nil => rfl
  | cons i t ih => simp [hydUrlItem, stripUrlItem, recUrlItemDoc, jsOr_empty, ih]

theorem blogUpdatePayload_eq (v : BlogForm) : blogUpdatePayload v = v := rfl

theorem hydrateSeo_roundtrip (so : SeoRec) (h : wellFormedSeoRec so = true) :
    hydrateSeo (some so) = receivedSeoDoc (some so) := by
  rcases so with ⟨st, sd, sk, smr, smv, scu, og⟩
  rcases og with _ | ⟨ot, od, ou, oty, oi⟩
  · simp [wellFormedSeoRec] at h
  · simp only [wellFormedSeoRec, Bool.and_eq_true] at h
    obtain ⟨⟨⟨⟨⟨⟨⟨⟨⟨⟨h1, h2⟩, h3⟩, h4⟩, h5⟩, h6⟩, h7⟩, h8⟩, h9⟩, h10⟩, h11⟩ := h
    simp [hydrateSeo, receivedSeoDoc, Option.bind, jsOr_empty,
      jsOr_truthy _ h5, jsOr_truthy _ h6, jsOr_truthy _ h11]

/-- C4 (amended): for every fetched blog record whose documented fields are
all present, whose defaulted fields are truthy and whose repeatable lists are
non-empty, hydrating the form state and submitting unchanged sends the update
call exactly the documented nested structure that was received; undocumented
extra fields of the record other than the list item ids are dropped, while a
present item id is carried along. Records outside this set are rewritten by
the hydration defaults, as the counterexample shows. -/
theorem hydrateBlog_roundtrip (today : String) (r : BlogRecord)
    (h : wellFormedBlogRec r = true) :
    sentBlogDoc (blogUpdatePayload (hydrateBlog today r)) = receivedBlogDoc r := by
  rcases r with ⟨so, bn, ct⟩
  rcases so with _ | ⟨so⟩
  · simp [wellFormedBlogRec] at h
  rcases bn with _ | ⟨bn⟩
  · simp [wellFormedBlogRec] at h
  rcases ct with _ | ⟨ct⟩
  · simp [wellFormedBlogRec] at h
  simp only [wellFormedBlogRec, Bool.and_eq_true] at h
  obtain ⟨⟨hso, hbn⟩, hct⟩ := h
  rcases ct with ⟨cta, ctitle, cthumb, cdate, cdesc, ctags, curls⟩
  rcases cta with _ | ⟨cta⟩
  · simp [wellFormedContentRec] at hct
  rcases cdesc with _ | ⟨de⟩
  · simp [wellFormedContentRec] at hct
  rcases ctags with _ | ⟨tg⟩
  · simp [wellFormedContentRec] at hct
  rcases curls with _ | ⟨ur⟩
  · simp [wellFormedContentRec] at hct
  rcases tg with ⟨tl, tt⟩
  rcases tl with _ | ⟨tl⟩
  · simp [wellFormedContentRec] at hct
  rcases ur with ⟨ul, ut⟩
  rcases ul with _ | ⟨ul⟩
  · simp [wellFormedContentRec] at hct
  simp only [wellFormedContentRec, Bool.and_eq_true] at hct
  obtain ⟨⟨⟨⟨⟨⟨⟨⟨⟨⟨c1, c2⟩, c3⟩, c4⟩, c5⟩, c6⟩, c7⟩, ⟨c8a, c8b⟩⟩, c9⟩, ⟨c10a, c10b⟩⟩, c11⟩ := hct
  have hde : de.isEmpty = false := by simpa using c6
  have htl : tl.isEmpty = false := by simpa using c8a
  have hul : ul.isEmpty = false := by simpa using c10a
  simp [sentBlogDoc, receivedBlogDoc, hydrateBlog, blogUpdatePayload, Option.bind,
    hydrateSeo_roundtrip so hso, jsOr_empty, jsOr_truthy today c5, jsOr_truthy "Tags" c9,
    jsOr_truthy "Urls" c11, listOr_ne _ _ _ hde, listOr_ne _ _ _ htl, listOr_ne _ _ _ hul,
    map_hydItem_strip, map_hydUrlItem_strip]
  refine ⟨?_, ?_, ?_⟩ <;> intro a _ <;>
    simp [stripItem, hydItem, recItemDoc, stripUrlItem, hydUrlItem, recUrlItemDoc, jsOr_empty]

theorem listOr_len {α β : Type} (o : Option (List α)) (f : α → β) (x : β) :
    1 ≤ (listOr o f [x]).length := by
  cases o with
  | none => simp [listOr]
  | some l =>
    cases l with
    | nil => simp [listOr]
    | cons a t => simp [listOr]

theorem jsFalsy_jsOr {o : Option String} (d : String) (h : jsFalsy o) : jsOr o d = d := by
  rcases h with rfl | rfl <;> simp [jsOr]

/-- Witness for C4: the concrete record rWell is well formed, and hydrating
then submitting it unchanged returns exactly its documented structure. -/
theorem hydrateBlog_roundtrip_witness :
    wellFormedBlogRec rWell = true ∧
      sentBlogDoc (blogUpdatePayload (hydrateBlog "2024-06-01" rWell)) = receivedBlogDoc rWell :=
  ⟨by decide, hydrateBlog_roundtrip "2024-06-01" rWell (by decide)⟩

/-- C4 counterexample: the fetched record rMeta stores an empty metaRobots
string, yet submitting unchanged after hydration sends "index, follow" back,
so the update call does not send exactly the structure that was received. -/
theorem hydrateBlog_roundtrip_cex :
    rMeta.seo.bind SeoRec.metaRobots = some "" ∧
      (receivedBlogDoc rMeta).seo.metaRobots = "" ∧
      (sentBlogDoc (blogUpdatePayload (hydrateBlog "2024-06-01" rMeta))).seo.metaRobots =
        "index, follow" ∧
      sentBlogDoc (blogUpdatePayload (hydrateBlog "2024-06-01" rMeta)) ≠ receivedBlogDoc rMeta := by
  refine ⟨by decide, by decide, by decide, ?_⟩
  intro he
  have h2 := congrArg (fun d : BlogDoc => d.seo.metaRobots) he
  have h3 : ("index, follow" : String) = "" := by
    calc ("index, follow" : String)
        = (sentBlogDoc (blogUpdatePayload (hydrateBlog "2024-06-01" rMeta))).seo.metaRobots := by
          decide
      _ = (receivedBlogDoc rMeta).seo.metaRobots := h2
      _ = "" := by decide
  exact absurd h3 (by decide)

/-- C1 counterexample: after the blog update fetch fails, the screen renders
the editable form (with the error banner shown, carrying the empty initial
values), not a form-less error view, contradicting the claim that the
editable form is never rendered after a fetch failure. -/
theorem updateBlog_fetchFail_renders_form_cex :
    renderUpdateBlog (updateBlogFetchFail "2024-06-01" "Network error") =
      UpdateBlogView.form true (emptyBlogValues "2024-06-01") := rfl

/-- C1 (amended): on both update screens, when the initial fetch fails the
error message is stored (the remote one, or the load fallback when empty)
and shown, but the editable form is rendered anyway once fetching ends,
initialized with the empty default values. -/
theorem updateScreens_fetchFail_amended (today msg : String) :
    renderUpdateBlog (updateBlogFetchFail today msg) =
      UpdateBlogView.form true (emptyBlogValues today) ∧
      (updateBlogFetchFail today msg).error =
        some (if msg = "" then "Failed to load blog data" else msg) ∧
      renderUpdateSB (updateSBFetchFail msg) = UpdateSBView.form true emptySBValues ∧
      (updateSBFetchFail msg).error =
        some (if msg = "" then "Failed to load SEO Banner data" else msg) :=
  ⟨rfl, rfl, rfl, rfl⟩

/-- Witness for C1: the amended behaviour at a concrete failure message. -/
theorem updateScreens_fetchFail_amended_witness :
    renderUpdateBlog (updateBlogFetchFail "2024-06-01" "boom") =
      UpdateBlogView.form true (emptyBlogValues "2024-06-01") :=
  (updateScreens_fetchFail_amended "2024-06-01" "boom").1

/-- C2: pressing the submit button while a submit is in flight (the loading
flag raised, so the button is disabled) is a no-op that starts no remote
call, and along every event sequence of the submit life cycle at most one
submit request is in flight. -/
theorem double_submit_guard (s : SubmitState) (hs : s.loading = true)
    (evs : List SubmitEvent) :
    submitStep s .click = s ∧ (submitStep s .click).calls = s.calls ∧
      (runSubmit evs).inflight ≤ 1 := by
  have h1 : submitStep s .click = s := by simp [submitStep, hs]
  refine ⟨h1, by rw [h1], ?_⟩
  have h2 := runSubmit_inv evs
  unfold submitInv at h2
  rw [h2]
  split <;> simp

/-- Witness for C2: a loading state ignores a click, and a concrete event
sequence keeps at most one request in flight. -/
theorem double_submit_guard_witness :
    submitStep ⟨true, 1, 1⟩ .click = ⟨true, 1, 1⟩ ∧
      (runSubmit [.click, .click, .response, .click]).inflight ≤ 1 :=
  ⟨(double_submit_guard ⟨true, 1, 1⟩ rfl [.click, .click, .response, .click]).1,
    (double_submit_guard ⟨true, 1, 1⟩ rfl [.click, .click, .response, .click]).2.2⟩

/-- C3 counterexample: the login screen has a password field, yet its
validation accepts password1, which contains no uppercase letter, so the
claimed rule does not hold for every password input. -/
theorem login_accepts_password1_cex :
    loginPasswordAccepts "password1" = true ∧ hasUpper "password1" = false := by
  refine ⟨by decide, by decide⟩

/-- C3 (amended): the registration password validation accepts exactly the
passwords of length at least eight that contain a lowercase letter, an
uppercase letter and a digit, so password1 fails there and Password1 passes;
the login password validation only requires length at least six. -/
theorem password_validation_amended :
    (∀ s : String, regPasswordAccepts s = true ↔
        (8 ≤ s.length ∧ hasLower s = true ∧ hasUpper s = true ∧ hasDigit s = true)) ∧
      (∀ s : String, loginPasswordAccepts s = true ↔ 6 ≤ s.length) ∧
      regPasswordAccepts "password1" = false ∧ regPasswordAccepts "Password1" = true := by
  refine ⟨?_, ?_, by decide, by decide⟩
  · intro s
    simp only [regPasswordAccepts, Bool.and_eq_true, decide_eq_true_eq]
    constructor
    · rintro ⟨⟨h8, ⟨⟨hl, hu⟩, hd⟩⟩, _⟩
      exact ⟨h8, hl, hu, hd⟩
    · rintro ⟨h8, hl, hu, hd⟩
      refine ⟨⟨h8, ⟨⟨hl, hu⟩, hd⟩⟩, ?_⟩
      simp only [Bool.not_eq_true', beq_eq_false_iff_ne, ne_eq]
      intro he
      subst he
      exact absurd h8 (by decide)
  · intro s
    simp only [loginPasswordAccepts, Bool.and_eq_true, decide_eq_true_eq]
    constructor
    · exact fun h => h.1
    · intro h6
      refine ⟨h6, ?_⟩
      simp only [Bool.not_eq_true', beq_eq_false_iff_ne, ne_eq]
      intro he
      subst he
      exact absurd h6 (by decide)

/-- Witness for C3: the amended rules at concrete passwords. -/
theorem password_validation_amended_witness :
    regPasswordAccepts "Abcdef12" = true ∧ loginPasswordAccepts "abcdef" = true :=
  ⟨(password_validation_amended.1 "Abcdef12").mpr ⟨by decide, by decide, by decide, by decide⟩,
    (password_validation_amended.2.1 "abcdef").mpr (by decide)⟩

/-- C5: for the scenario-A input the registration schema reports no errors,
and on a successful response the submit makes exactly one remote sign-up call
with that email and password (and the name metadata), shows the success
banner, and schedules one navigation to the login screen 3000 milliseconds
after the response, with loading back at idle. -/
theorem registration_scenarioA_run (resp : AuthResponse) (he : resp.error = none)
    (hu : resp.hasUser = true) :
    regValidate scenarioA = [] ∧
      formikRegisterSubmit scenarioA resp =
        ⟨[⟨"jo@x.com", "Passw0rd", "Jo", "Ng", "Jo Ng"⟩], true, none,
          [(3000, "/authentication/login")], false⟩ := by
  rcases resp with ⟨hasUser, err⟩
  simp only at he hu
  subst he
  subst hu
  exact ⟨by decide, by rfl⟩

/-- Witness for C5: the scenario at the concrete successful response. -/
theorem registration_scenarioA_run_witness :
    (⟨true, none⟩ : AuthResponse).error = none ∧
      formikRegisterSubmit scenarioA ⟨true, none⟩ =
        ⟨[⟨"jo@x.com", "Passw0rd", "Jo", "Ng", "Jo Ng"⟩], true, none,
          [(3000, "/authentication/login")], false⟩ :=
  ⟨rfl, (registration_scenarioA_run ⟨true, none⟩ rfl rfl).2⟩

/-- C6: on a failing remote call every submit handler stores the failed
message, taking the remote message verbatim when non-empty and the generic
per-form fallback when the remote provided none; shown here for the sign-in,
sign-up, both inserts and both updates. -/
theorem submit_failure_message (m : String) (hu : Bool) (lv : LoginValues)
    (rv : RegisterValues) (bv : BlogForm) (sv : SBForm) (bid sid : String)
    (hb : bid ≠ "") (hs : sid ≠ "") :
    (loginHandleSubmit lv ⟨hu, some m⟩).errorMsg =
        some (if m = "" then "Login failed. Please check your credentials." else m) ∧
      (loginHandleSubmit lv ⟨hu, some m⟩).navs = [] ∧
      (registerHandleSubmit rv ⟨hu, some m⟩).errorMsg =
        some (if m = "" then "Registration failed. Please try again." else m) ∧
      (registerHandleSubmit rv ⟨hu, some m⟩).success = false ∧
      (createBlogHandleSubmit bv ⟨some m⟩).errorMsg =
        some (if m = "" then "Failed to create blog" else m) ∧
      (updateBlogHandleSubmit bid bv ⟨some m⟩).errorMsg =
        some (if m = "" then "Failed to update blog" else m) ∧
      (createSBHandleSubmit sv ⟨some m⟩).errorMsg =
        some (if m = "" then "Failed to create SEO Banner" else m) ∧
      (updateSBHandleSubmit sid sv ⟨some m⟩).errorMsg =
        some (if m = "" then "Failed to update SEO Banner" else m) := by
  refine ⟨rfl, rfl, rfl, rfl, rfl, ?_, rfl, ?_⟩
  · simp [updateBlogHandleSubmit, hb]
  · simp [updateSBHandleSubmit, hs]

/-- Witness for C6: a concrete failing sign-in stores the remote message. -/
theorem submit_failure_message_witness :
    ("1" : String) ≠ "" ∧
      (loginHandleSubmit ⟨"a@b.co", "secret1", true⟩ ⟨false, some "Boom"⟩).errorMsg =
        some "Boom" :=
  ⟨by decide, by
    have h := submit_failure_message "Boom" false ⟨"a@b.co", "secret1", true⟩
      ⟨"Al", "Bo", "a@b.co", "Passw0rd", "Passw0rd", true⟩ (emptyBlogValues "2024-06-01")
      emptySBValues "1" "2" (by decide) (by decide)
    simpa using h.1⟩

/-- C7: submitting the create-blog form while content.tags.list is the single
empty entry puts the message Tag is required on that entry in the validation
result, and the form library blocks the submit, so no remote insert call is
made. -/
theorem createBlog_emptyTag_blocks (v : BlogForm) (resp : DbResponse)
    (h : v.content.tags.list = [⟨"", none⟩]) :
    ("content.tags.list.0.text", "Tag is required") ∈ blogValidate v ∧
      formikCreateBlogSubmit v resp = ⟨[], false, none, false⟩ := by
  have htag : itemTextErrorsAux "content.tags.list" "Tag is required" 0
      [(⟨"", none⟩ : ItemForm)] = [("content.tags.list.0.text", "Tag is required")] := by
    decide
  have hmem : ("content.tags.list.0.text", "Tag is required") ∈ contentErrors v.content := by
    simp [contentErrors, h, htag, List.mem_append]
  have hmem2 : ("content.tags.list.0.text", "Tag is required") ∈ blogValidate v := by
    simp only [blogValidate, List.mem_append]
    exact Or.inr hmem
  have hne : blogValidate v ≠ [] := by
    intro he
    rw [he] at hmem2
    exact (List.not_mem_nil _) hmem2
  exact ⟨hmem2, by simp [formikCreateBlogSubmit, hne]⟩

/-- Witness for C7: the empty initial blog values carry exactly that tag
list, and submitting them makes no remote call. -/
theorem createBlog_emptyTag_blocks_witness :
    (emptyBlogValues "2024-06-01").content.tags.list = [⟨"", none⟩] ∧
      formikCreateBlogSubmit (emptyBlogValues "2024-06-01") ⟨none⟩ = ⟨[], false, none, false⟩ :=
  ⟨rfl, (createBlog_emptyTag_blocks (emptyBlogValues "2024-06-01") ⟨none⟩ rfl).2⟩

/-- C8: selecting a file in the OG-image field raises the uploading status of
that field without touching the form values, and on resolution the returned
secure URL is written into the open-graph image field, the status returns to
idle, and every other form state field is unchanged. -/
theorem ogUpload_frame (s : SBScreen) (url : String) :
    (ogUploadStart s).ogUploading = true ∧
      (ogUploadStart s).values = s.values ∧
      (ogUploadResolve s url).values.seo.openGraph.image = url ∧
      (ogUploadResolve s url).ogUploading = false ∧
      (ogUploadResolve s url).values.seo.openGraph.title = s.values.seo.openGraph.title ∧
      (ogUploadResolve s url).values.seo.openGraph.description =
        s.values.seo.openGraph.description ∧
      (ogUploadResolve s url).values.seo.openGraph.url = s.values.seo.openGraph.url ∧
      (ogUploadResolve s url).values.seo.openGraph.type = s.values.seo.openGraph.type ∧
      (ogUploadResolve s url).values.seo.title = s.values.seo.title ∧
      (ogUploadResolve s url).values.seo.description = s.values.seo.description ∧
      (ogUploadResolve s url).values.seo.keywords = s.values.seo.keywords ∧
      (ogUploadResolve s url).values.seo.metaRobots = s.values.seo.metaRobots ∧
      (ogUploadResolve s url).values.seo.metaViewport = s.values.seo.metaViewport ∧
      (ogUploadResolve s url).values.seo.canonicalURL = s.values.seo.canonicalURL ∧
      (ogUploadResolve s url).values.banner = s.values.banner :=
  ⟨rfl, rfl, rfl, rfl, rfl, rfl, rfl, rfl, rfl, rfl, rfl, rfl, rfl, rfl, rfl⟩

/-- Witness for C8: the upload at a concrete screen and URL. -/
theorem ogUpload_frame_witness :
    (ogUploadResolve ⟨emptySBValues, false⟩ "https://cdn.example.com/x.png").values.seo.openGraph.image =
      "https://cdn.example.com/x.png" :=
  (ogUpload_frame ⟨emptySBValues, false⟩ "https://cdn.example.com/x.png").2.2.1

/-- C9: for every fetched record, on the blog update screen the hydrated form
state keeps its three repeatable lists non-empty, and on both update screens
every absent or falsy defaulted field comes out as its documented default:
metaRobots, metaViewport and the open-graph type on both screens, and on the
blog screen also createdDate (the current date), the tags caption and the
urls caption. -/
theorem hydrate_shape_invariant (today : String) (r : BlogRecord) (r2 : SBRecord) :
    1 ≤ (hydrateBlog today r).content.description.length ∧
      1 ≤ (hydrateBlog today r).content.tags.list.length ∧
      1 ≤ (hydrateBlog today r).content.urls.list.length ∧
      (jsFalsy (r.seo.bind SeoRec.metaRobots) →
        (hydrateBlog today r).seo.metaRobots = "index, follow") ∧
      (jsFalsy (r.seo.bind SeoRec.metaViewport) →
        (hydrateBlog today r).seo.metaViewport = "width=device-width, initial-scale=1") ∧
      (jsFalsy ((r.seo.bind SeoRec.openGraph).bind OpenGraphRec.type) →
        (hydrateBlog today r).seo.openGraph.type = "website") ∧
      (jsFalsy (r2.seo.bind SeoRec.metaRobots) →
        (hydrateSB r2).seo.metaRobots = "index, follow") ∧
      (jsFalsy ((r2.seo.bind SeoRec.openGraph).bind OpenGraphRec.type) →
        (hydrateSB r2).seo.openGraph.type = "website") ∧
      (jsFalsy (r.content.bind ContentRec.createdDate) →
        (hydrateBlog today r).content.createdDate = today) ∧
      (jsFalsy ((r.content.bind ContentRec.tags).bind TagsRec.text) →
        (hydrateBlog today r).content.tags.text = "Tags") ∧
      (jsFalsy ((r.content.bind ContentRec.urls).bind UrlsRec.text) →
        (hydrateBlog today r).content.urls.text = "Urls") ∧
      (jsFalsy (r2.seo.bind SeoRec.metaViewport) →
        (hydrateSB r2).seo.metaViewport = "width=device-width, initial-scale=1") := by
  refine ⟨?_, ?_, ?_, ?_, ?_, ?_, ?_, ?_, ?_, ?_, ?_, ?_⟩
  · simpa [hydrateBlog] using
      listOr_len (r.content.bind ContentRec.description) hydItem (⟨"", none⟩ : ItemForm)
  · simpa [hydrateBlog] using
      listOr_len ((r.content.bind ContentRec.tags).bind TagsRec.list) hydItem
        (⟨"", none⟩ : ItemForm)
  · simpa [hydrateBlog] using
      listOr_len ((r.content.bind ContentRec.urls).bind UrlsRec.list) hydUrlItem
        (⟨"", "", none⟩ : UrlItemForm)
  · intro hf
    simpa [hydrateBlog, hydrateSeo] using jsFalsy_jsOr "index, follow" hf
  · intro hf
    simpa [hydrateBlog, hydrateSeo] using jsFalsy_jsOr "width=device-width, initial-scale=1" hf
  · intro hf
    simpa [hydrateBlog, hydrateSeo] using jsFalsy_jsOr "website" hf
  · intro hf
    simpa [hydrateSB, hydrateSeo] using jsFalsy_jsOr "index, follow" hf
  · intro hf
    simpa [hydrateSB, hydrateSeo] using jsFalsy_jsOr "website" hf
  · intro hf
    simpa [hydrateBlog] using jsFalsy_jsOr today hf
  · intro hf
    simpa [hydrateBlog] using jsFalsy_jsOr "Tags" hf
  · intro hf
    simpa [hydrateBlog] using jsFalsy_jsOr "Urls" hf
  · intro hf
    simpa [hydrateSB, hydrateSeo] using jsFalsy_jsOr "width=device-width, initial-scale=1" hf

/-- Witness for C9: the invariant at the fully absent records, exercising a
list bound and the metaRobots, createdDate, tags caption and SEO-banner
metaViewport defaults. -/
theorem hydrate_shape_invariant_witness :
    jsFalsy (rAbsent.seo.bind SeoRec.metaRobots) ∧
      (hydrateBlog "2024-06-01" rAbsent).seo.metaRobots = "index, follow" ∧
      1 ≤ (hydrateBlog "2024-06-01" rAbsent).content.tags.list.length ∧
      (hydrateBlog "2024-06-01" rAbsent).content.createdDate = "2024-06-01" ∧
      (hydrateBlog "2024-06-01" rAbsent).content.tags.text = "Tags" ∧
      (hydrateSB sbAbsent).seo.metaViewport = "width=device-width, initial-scale=1" :=
  ⟨Or.inl rfl,
    (hydrate_shape_invariant "2024-06-01" rAbsent sbAbsent).2.2.2.1 (Or.inl rfl),
    (hydrate_shape_invariant "2024-06-01" rAbsent sbAbsent).2.1,
    (hydrate_shape_invariant "2024-06-01" rAbsent sbAbsent).2.2.2.2.2.2.2.2.1 (Or.inl rfl),
    (hydrate_shape_invariant "2024-06-01" rAbsent sbAbsent).2.2.2.2.2.2.2.2.2.1 (Or.inl rfl),
    (hydrate_shape_invariant "2024-06-01" rAbsent sbAbsent).2.2.2.2.2.2.2.2.2.2.2 (Or.inl rfl)⟩

/-- C10: when the remote sign-in or sign-up returns neither an error nor a
user, the submit completes silently: the one remote call is made, but no
error message, no success banner, no navigation (immediate or scheduled) and
no remember-me persistence change result, and loading returns to idle. -/
theorem degenerate_response_silent (lv : LoginValues) (rv : RegisterValues) :
    loginHandleSubmit lv ⟨false, none⟩ =
        ⟨[⟨lv.email, lv.password⟩], none, [], [], false⟩ ∧
      registerHandleSubmit rv ⟨false, none⟩ =
        ⟨[⟨rv.email, rv.password, rv.firstName, rv.lastName,
            rv.firstName ++ " " ++ rv.lastName⟩], false, none, [], false⟩ :=
  ⟨rfl, rfl⟩

/-- Witness for C10: the degenerate response at concrete field values. -/
theorem degenerate_response_silent_witness :
    loginHandleSubmit ⟨"a@b.co", "secret1", true⟩ ⟨false, none⟩ =
      ⟨[⟨"a@b.co", "secret1"⟩], none, [], [], false⟩ :=
  (degenerate_response_silent ⟨"a@b.co", "secret1", true⟩
    ⟨"Al", "Bo", "a@b.co", "Passw0rd", "Passw0rd", true⟩).1
